import Mathlib

/-!
Shallow embedding of the AgentForge Lite provider-abstraction layer
(`src/aiProviders.js` and the inlined `AIProviders` copy in the main
application file), together with theorems checking the specification's
claims about it.

JavaScript values that can flow through the adapters are modelled by the
`Json` type (with `undef` for JavaScript's `undefined`), fallible
JavaScript evaluation by `Except JsError`, and the `fetch` primitive by an
environment function from requests to fetch results.  Each adapter returns
its result together with the list of network requests it issued.
-/

/-- A JavaScript `Error`-like value: a `name` (e.g. "Error", "TypeError")
and a `message`. -/
structure JsError where
  name : String
  message : String
deriving DecidableEq, Repr

/-- `new Error(message)` — name is "Error". -/
def jsError (message : String) : JsError :=
  { name := "Error", message := message }

/-- A runtime `TypeError` as raised by property accesses on `null` /
`undefined` or by calling a non-function. -/
def typeError (message : String) : JsError :=
  { name := "TypeError", message := message }

/-- JSON-ish JavaScript values.  `undef` models `undefined`, which never
occurs in a parsed JSON body but does arise from property accesses.
Numbers are modelled as rationals (the code only ever embeds the literals
`0.7` and `500` and never inspects a number). -/
inductive Json where
  | undef : Json
  | null : Json
  | bool (b : Bool) : Json
  | num (q : Rat) : Json
  | str (s : String) : Json
  | arr (elems : List Json) : Json
  | obj (fields : List (String × Json)) : Json

/-- JavaScript truthiness. -/
def Json.truthy : Json → Bool
  | .undef => false
  | .null => false
  | .bool b => b
  | .num q => decide (q ≠ 0)
  | .str s => decide (s ≠ "")
  | .arr _ => true
  | .obj _ => true

/-- First-match field lookup in an object (parsed JSON has no duplicate
keys, so first match agrees with JavaScript's lookup). -/
def lookupField : List (String × Json) → String → Json
  | [], _ => Json.undef
  | (k, v) :: rest, key => if k = key then v else lookupField rest key

/-- Property lookup on a value that is a valid receiver (not
`null`/`undefined`); non-objects have none of the properties this code
reads. -/
def Json.getD (v : Json) (k : String) : Json :=
  match v with
  | .obj fields => lookupField fields k
  | _ => Json.undef

/-- JavaScript property access `v.k`: throws a `TypeError` when the
receiver is `null`/`undefined`. -/
def Json.get (v : Json) (k : String) : Except JsError Json :=
  match v with
  | .undef => .error (typeError ("Cannot read properties of undefined (reading \x27" ++ k ++ "\x27)"))
  | .null => .error (typeError ("Cannot read properties of null (reading \x27" ++ k ++ "\x27)"))
  | _ => .ok (v.getD k)

/-- Optional-chained property access `v?.k`. -/
def Json.optGet (v : Json) (k : String) : Json :=
  match v with
  | .undef => Json.undef
  | .null => Json.undef
  | _ => v.getD k

/-- JavaScript index access `v[i]`: element of an array, character of a
string, numeric-string key of an object, `TypeError` on `null`/`undefined`. -/
def Json.idx (v : Json) (i : Nat) : Except JsError Json :=
  match v with
  | .undef => .error (typeError ("Cannot read properties of undefined (reading \x27" ++ toString i ++ "\x27)"))
  | .null => .error (typeError ("Cannot read properties of null (reading \x27" ++ toString i ++ "\x27)"))
  | .arr xs => .ok (xs.getD i Json.undef)
  | .str s => .ok (match s.data.drop i with
      | c :: _ => Json.str (String.singleton c)
      | [] => Json.undef)
  | .obj fields => .ok (lookupField fields (toString i))
  | _ => .ok Json.undef

/-- `String.prototype.trim`: drops leading and trailing whitespace.
(JavaScript's whitespace set also has exotic members such as NBSP and
form feed; `Char.isWhitespace` covers the common ones.) -/
def jsTrim (s : String) : String :=
  String.mk (((s.data.dropWhile Char.isWhitespace).reverse.dropWhile Char.isWhitespace).reverse)

/-- `v.trim()`: trims a string, raises a `TypeError` otherwise. -/
def Json.callTrim (v : Json) : Except JsError Json :=
  match v with
  | .str s => .ok (Json.str (jsTrim s))
  | .undef => .error (typeError ("Cannot read properties of undefined (reading \x27trim\x27)"))
  | .null => .error (typeError ("Cannot read properties of null (reading \x27trim\x27)"))
  | _ => .error (typeError ("trim is not a function"))

/-- Optional-chained call `v?.trim()`. -/
def Json.optCallTrim (v : Json) : Except JsError Json :=
  match v with
  | .undef => .ok Json.undef
  | .null => .ok Json.undef
  | _ => v.callTrim

mutual

/-- JavaScript `String(v)` coercion as used by `new Error(v)`.  Number
formatting is approximated (never exercised by the theorems below: the
claims only involve string-valued messages). -/
def Json.jsToString : Json → String
  | .undef => "undefined"
  | .null => "null"
  | .bool b => cond b "true" "false"
  | .num q => if q.den = 1 then toString q.num else toString q
  | .str s => s
  | .arr xs => Json.arrJoin xs
  | .obj _ => "[object Object]"

/-- `Array.prototype.join(",")` on stringified elements; `null` and
`undefined` elements stringify to the empty string. -/
def Json.arrJoin : List Json → String
  | [] => ""
  | [Json.undef] => ""
  | [Json.null] => ""
  | [x] => Json.jsToString x
  | Json.undef :: xs => "," ++ Json.arrJoin xs
  | Json.null :: xs => "," ++ Json.arrJoin xs
  | x :: xs => Json.jsToString x ++ "," ++ Json.arrJoin xs

end

/-- Boolean test: does `pat` occur at the start of `s`? -/
def charsStartsWith : List Char → List Char → Bool
  | [], _ => true
  | _ :: _, [] => false
  | p :: ps, c :: cs => p == c && charsStartsWith ps cs

/-- Boolean test: does `pat` occur anywhere in `s`? -/
def charsContains (pat : List Char) : List Char → Bool
  | [] => charsStartsWith pat []
  | c :: cs => charsStartsWith pat (c :: cs) || charsContains pat cs

/-- JavaScript `s.includes(pat)`. -/
def jsIncludes (s pat : String) : Bool :=
  charsContains pat.data s.data

/-- `response.ok`: status in [200, 300). -/
def responseOk (status : Nat) : Bool :=
  decide (200 ≤ status) && decide (status < 300)

/-- One hex digit, uppercase. -/
def hexDigit (n : Nat) : Char :=
  if n < 10 then Char.ofNat (48 + n) else Char.ofNat (55 + n)

/-- A percent-encoded byte, e.g. `%2F`. -/
def percentByte (b : Nat) : String :=
  "%" ++ String.singleton (hexDigit (b / 16)) ++ String.singleton (hexDigit (b % 16))

/-- UTF-8 bytes of a code point. -/
def utf8Bytes (n : Nat) : List Nat :=
  if n < 128 then [n]
  else if n < 2048 then [192 + n / 64, 128 + n % 64]
  else if n < 65536 then [224 + n / 4096, 128 + (n / 64) % 64, 128 + n % 64]
  else [240 + n / 262144, 128 + (n / 4096) % 64, 128 + (n / 64) % 64, 128 + n % 64]

/-- Characters `encodeURIComponent` leaves unescaped. -/
def uriUnreserved (c : Char) : Bool :=
  c.isAlphanum || c == '-' || c == '_' || c == '.' || c == '!' || c == '~' ||
    c == '*' || c == Char.ofNat 39 || c == '(' || c == ')'

/-- The JavaScript builtin `encodeURIComponent`. -/
def encodeURIComponent (s : String) : String :=
  String.join (s.data.map fun c =>
    if uriUnreserved c then String.singleton c
    else String.join ((utf8Bytes c.toNat).map percentByte))

/-- A chat message (`{role, content}`). -/
structure ChatMessage where
  role : String
  content : String
deriving DecidableEq, Repr

/-- The JSON form of a message array as serialized into request bodies. -/
def messagesJson (messages : List ChatMessage) : Json :=
  Json.arr (messages.map fun m =>
    Json.obj [("role", Json.str m.role), ("content", Json.str m.content)])

/-- An HTTP request as issued through `fetch`: URL, method, headers and
the (pre-serialization) JSON payload. -/
structure Request where
  url : String
  method : String
  headers : List (String × String)
  body : Json

/-- The outcome of one `fetch`: either the promise rejects (transport
error), or a response arrives with a status code and a body whose JSON
parse either succeeds or fails with the parse error. -/
inductive FetchResult where
  | reject (e : JsError) : FetchResult
  | response (status : Nat) (body : Except JsError Json) : FetchResult

/-- The ambient browser environment: the network behaviour and
`window.location.origin`. -/
structure Env where
  net : Request → FetchResult
  origin : String

/-- CORS proxy helper (`withCors` in `src/aiProviders.js`). -/
def withCors (url : String) : String :=
  "https://api.allorigins.win/raw?url=" ++ encodeURIComponent url

/-- Shared handling of a non-2xx response body:
`(await response.json().catch(() => ({error: 'Unknown error'}))).error?.message`. -/
def envelopeMessageVal (body : Except JsError Json) : Except JsError Json :=
  let errVal : Json :=
    match body with
    | .ok j => j
    | .error _ => Json.obj [("error", Json.str "Unknown error")]
  match errVal.get "error" with
  | .error e => .error e
  | .ok e1 => .ok (e1.optGet "message")

/-! ## OpenRouter adapter (`sendOpenRouterChat`) -/

def openRouterUrl : String := "https://openrouter.ai/api/v1/chat/completions"

def openRouterPayload (model : String) (messages : List ChatMessage) : Json :=
  Json.obj [("model", Json.str model), ("messages", messagesJson messages),
    ("temperature", Json.num ((7 : Rat)/10)), ("max_tokens", Json.num 500)]

def openRouterHeaders (apiKey origin : String) : List (String × String) :=
  [("Content-Type", "application/json"),
   ("Authorization", "Bearer " ++ apiKey),
   ("HTTP-Referer", origin),
   ("X-Title", "AgentForge Lite")]

def openRouterReq (origin model : String) (messages : List ChatMessage) (apiKey : String) : Request :=
  { url := openRouterUrl, method := "POST",
    headers := openRouterHeaders apiKey origin,
    body := openRouterPayload model messages }

def openRouterCorsReq (origin model : String) (messages : List ChatMessage) (apiKey : String) : Request :=
  { url := withCors openRouterUrl, method := "POST",
    headers := openRouterHeaders apiKey origin,
    body := openRouterPayload model messages }

/-- Body of the `try` block of `sendOpenRouterChat`, as a function of the
primary fetch's outcome. -/
def openRouterAttempt (r : FetchResult) : Except JsError Json :=
  match r with
  | .reject e => .error e
  | .response status body =>
    if responseOk status then
      match body with
      | .error e => .error e
      | .ok data =>
        match data.get "choices" with
        | .error e => .error e
        | .ok choices =>
          if choices.truthy then
            match choices.idx 0 with
            | .error e => .error e
            | .ok c0 =>
              if c0.truthy then
                match c0.get "message" with
                | .error e => .error e
                | .ok msg => msg.get "content"
              else .error (jsError "Invalid response format from OpenRouter")
          else .error (jsError "Invalid response format from OpenRouter")
    else
      match envelopeMessageVal body with
      | .error e => .error e
      | .ok mv =>
        .error (jsError (if mv.truthy then mv.jsToString else "HTTP " ++ toString status))

/-- Body of the inner CORS-retry `try` block of `sendOpenRouterChat`. -/
def openRouterCorsAttempt (r : FetchResult) : Except JsError Json :=
  match r with
  | .reject e => .error e
  | .response status body =>
    if responseOk status then
      match body with
      | .error e => .error e
      | .ok corsData =>
        match corsData.get "choices" with
        | .error e => .error e
        | .ok choices =>
          match choices.idx 0 with
          | .error e => .error e
          | .ok c0 =>
            match c0.get "message" with
            | .error e => .error e
            | .ok msg => msg.get "content"
    else .error (jsError ("HTTP " ++ toString status))

def sendOpenRouterChat (env : Env) (model : String) (messages : List ChatMessage)
    (apiKey : String) : Except JsError Json × List Request :=
  if apiKey = "" then
    (.error (jsError "OpenRouter API key is required"), [])
  else
    let req := openRouterReq env.origin model messages apiKey
    match openRouterAttempt (env.net req) with
    | .ok v => (.ok v, [req])
    | .error e =>
      if e.name = "TypeError" ∧ jsIncludes e.message "CORS" = true then
        let corsReq := openRouterCorsReq env.origin model messages apiKey
        match openRouterCorsAttempt (env.net corsReq) with
        | .ok v => (.ok v, [req, corsReq])
        | .error _ =>
          (.error (jsError "CORS error - try enabling browser CORS extension or use different provider"),
            [req, corsReq])
      else (.error e, [req])

/-! ## HuggingFace adapter (`sendHuggingFaceChat`) -/

def hfUrl (model : String) : String :=
  "https://api-inference.huggingface.co/models/" ++ model

/-- Message flattening into a single prompt string. -/
def hfPrompt (messages : List ChatMessage) : String :=
  String.intercalate "\n" (messages.map fun msg =>
    if msg.role = "system" then "System: " ++ msg.content
    else if msg.role = "user" then "User: " ++ msg.content
    else if msg.role = "assistant" then "Assistant: " ++ msg.content
    else msg.content) ++ "\nAssistant:"

def hfPayload (messages : List ChatMessage) : Json :=
  Json.obj [("inputs", Json.str (hfPrompt messages)),
    ("parameters", Json.obj [("max_new_tokens", Json.num 500),
      ("temperature", Json.num ((7 : Rat)/10)), ("return_full_text", Json.bool false)])]

def hfHeaders (apiKey : String) : List (String × String) :=
  if apiKey = "" then [("Content-Type", "application/json")]
  else [("Content-Type", "application/json"), ("Authorization", "Bearer " ++ apiKey)]

def hfReq (model : String) (messages : List ChatMessage) (apiKey : String) : Request :=
  { url := hfUrl model, method := "POST", headers := hfHeaders apiKey,
    body := hfPayload messages }

def hfCorsReq (model : String) (messages : List ChatMessage) (apiKey : String) : Request :=
  { url := withCors (hfUrl model), method := "POST", headers := hfHeaders apiKey,
    body := hfPayload messages }

/-- Body of the `try` block of `sendHuggingFaceChat`. -/
def hfAttempt (r : FetchResult) : Except JsError Json :=
  match r with
  | .reject e => .error e
  | .response status body =>
    if responseOk status then
      match body with
      | .error e => .error e
      | .ok data =>
        match data with
        | .arr elems =>
          let gt := (elems.headD Json.undef).optGet "generated_text"
          if gt.truthy then gt.callTrim
          else .error (jsError "Invalid response format from HuggingFace")
        | _ =>
          match data.get "generated_text" with
          | .error e => .error e
          | .ok gt =>
            if gt.truthy then gt.callTrim
            else .error (jsError "Invalid response format from HuggingFace")
    else
      match envelopeMessageVal body with
      | .error e => .error e
      | .ok mv =>
        .error (jsError (if mv.truthy then mv.jsToString
          else "HTTP " ++ toString status ++ " - Model may be loading, try again in a moment"))

/-- Body of the inner CORS-retry `try` block of `sendHuggingFaceChat`,
including the best-effort salvage chain
`corsData[0]?.generated_text?.trim() || corsData.generated_text?.trim() || 'No response generated'`. -/
def hfCorsAttempt (r : FetchResult) : Except JsError Json :=
  match r with
  | .reject e => .error e
  | .response status body =>
    if responseOk status then
      match body with
      | .error e => .error e
      | .ok corsData =>
        match corsData.idx 0 with
        | .error e => .error e
        | .ok e0 =>
          match (e0.optGet "generated_text").optCallTrim with
          | .error e => .error e
          | .ok t1 =>
            if t1.truthy then .ok t1
            else
              match corsData.get "generated_text" with
              | .error e => .error e
              | .ok gt =>
                match gt.optCallTrim with
                | .error e => .error e
                | .ok t2 =>
                  if t2.truthy then .ok t2
                  else .ok (Json.str "No response generated")
    else .error (jsError ("HTTP " ++ toString status))

def sendHuggingFaceChat (env : Env) (model : String) (messages : List ChatMessage)
    (apiKey : String) : Except JsError Json × List Request :=
  let req := hfReq model messages apiKey
  match hfAttempt (env.net req) with
  | .ok v => (.ok v, [req])
  | .error e =>
    if e.name = "TypeError" ∧ jsIncludes e.message "CORS" = true then
      let corsReq := hfCorsReq model messages apiKey
      match hfCorsAttempt (env.net corsReq) with
      | .ok v => (.ok v, [req, corsReq])
      | .error _ =>
        (.error (jsError "CORS error - HuggingFace may require API key or try different model"),
          [req, corsReq])
    else (.error e, [req])

/-! ## Local (Ollama) adapter (`sendLocalChat`) -/

def localDefaultEndpoint : String := "http://localhost:11434/api/chat"

def localPayload (model : String) (messages : List ChatMessage) : Json :=
  Json.obj [("model", Json.str model), ("messages", messagesJson messages),
    ("stream", Json.bool false),
    ("options", Json.obj [("temperature", Json.num ((7 : Rat)/10)), ("num_predict", Json.num 500)])]

def localReq (model : String) (messages : List ChatMessage) (endpoint : String) : Request :=
  { url := if endpoint = "" then localDefaultEndpoint else endpoint,
    method := "POST",
    headers := [("Content-Type", "application/json")],
    body := localPayload model messages }

/-- Body of the `try` block of `sendLocalChat`. -/
def localAttempt (model : String) (r : FetchResult) : Except JsError Json :=
  match r with
  | .reject e => .error e
  | .response status body =>
    if responseOk status then
      match body with
      | .error e => .error e
      | .ok data =>
        match data.get "message" with
        | .error e => .error e
        | .ok msg =>
          if msg.truthy then
            match msg.get "content" with
            | .error e => .error e
            | .ok content =>
              if content.truthy then content.callTrim
              else .error (jsError "Invalid response format from Ollama")
          else .error (jsError "Invalid response format from Ollama")
    else
      .error (jsError ("Ollama server error: HTTP " ++ toString status ++
        ". Make sure Ollama is running and model \x27" ++ model ++ "\x27 is installed."))

def sendLocalChat (env : Env) (model : String) (messages : List ChatMessage)
    (endpoint : String) : Except JsError Json × List Request :=
  let req := localReq model messages endpoint
  match localAttempt model (env.net req) with
  | .ok v => (.ok v, [req])
  | .error e =>
    if e.name = "TypeError" ∧
        (jsIncludes e.message "Failed to fetch" = true ∨ jsIncludes e.message "CORS" = true) then
      (.error (jsError "Cannot connect to Ollama server. Make sure Ollama is running on the specified endpoint and CORS is enabled."),
        [req])
    else (.error e, [req])

/-! ## Gateway (`sendChat`) -/

def sendChat (env : Env) (provider model : String) (messages : List ChatMessage)
    (apiKey localEndpoint : String) : Except JsError Json × List Request :=
  let inner : Except JsError Json × List Request :=
    if provider = "openrouter" then sendOpenRouterChat env model messages apiKey
    else if provider = "huggingface" then sendHuggingFaceChat env model messages apiKey
    else if provider = "local" then sendLocalChat env model messages localEndpoint
    else (.error (jsError ("Unsupported provider: " ++ provider)), [])
  match inner with
  | (.ok v, tr) => (.ok v, tr)
  | (.error e, tr) => (.error (jsError ("AI request failed: " ++ e.message)), tr)

/-! ## Inlined copy of the provider module

The main application file defines an `AIProviders` object whose methods
re-implement the standalone module.  The definitions below are
transliterated from that inlined copy (`src/unnamed/part_000`),
independently of the module embedding above. -/

namespace AIProviders

def withCors (url : String) : String :=
  "https://api.allorigins.win/raw?url=" ++ encodeURIComponent url

def openRouterUrl : String := "https://openrouter.ai/api/v1/chat/completions"

def openRouterPayload (model : String) (messages : List ChatMessage) : Json :=
  Json.obj [("model", Json.str model), ("messages", messagesJson messages),
    ("temperature", Json.num ((7 : Rat)/10)), ("max_tokens", Json.num 500)]

def openRouterHeaders (apiKey origin : String) : List (String × String) :=
  [("Content-Type", "application/json"),
   ("Authorization", "Bearer " ++ apiKey),
   ("HTTP-Referer", origin),
   ("X-Title", "AgentForge Lite")]

def openRouterReq (origin model : String) (messages : List ChatMessage) (apiKey : String) : Request :=
  { url := openRouterUrl, method := "POST",
    headers := openRouterHeaders apiKey origin,
    body := openRouterPayload model messages }

def openRouterCorsReq (origin model : String) (messages : List ChatMessage) (apiKey : String) : Request :=
  { url := withCors openRouterUrl, method := "POST",
    headers := openRouterHeaders apiKey origin,
    body := openRouterPayload model messages }

def openRouterAttempt (r : FetchResult) : Except JsError Json :=
  match r with
  | .reject e => .error e
  | .response status body =>
    if responseOk status then
      match body with
      | .error e => .error e
      | .ok data =>
        match data.get "choices" with
        | .error e => .error e
        | .ok choices =>
          if choices.truthy then
            match choices.idx 0 with
            | .error e => .error e
            | .ok c0 =>
              if c0.truthy then
                match c0.get "message" with
                | .error e => .error e
                | .ok msg => msg.get "content"
              else .error (jsError "Invalid response format from OpenRouter")
          else .error (jsError "Invalid response format from OpenRouter")
    else
      match envelopeMessageVal body with
      | .error e => .error e
      | .ok mv =>
        .error (jsError (if mv.truthy then mv.jsToString else "HTTP " ++ toString status))

def openRouterCorsAttempt (r : FetchResult) : Except JsError Json :=
  match r with
  | .reject e => .error e
  | .response status body =>
    if responseOk status then
      match body with
      | .error e => .error e
      | .ok corsData =>
        match corsData.get "choices" with
        | .error e => .error e
        | .ok choices =>
          match choices.idx 0 with
          | .error e => .error e
          | .ok c0 =>
            match c0.get "message" with
            | .error e => .error e
            | .ok msg => msg.get "content"
    else .error (jsError ("HTTP " ++ toString status))

def sendOpenRouterChat (env : Env) (model : String) (messages : List ChatMessage)
    (apiKey : String) : Except JsError Json × List Request :=
  if apiKey = "" then
    (.error (jsError "OpenRouter API key is required"), [])
  else
    let req := openRouterReq env.origin model messages apiKey
    match openRouterAttempt (env.net req) with
    | .ok v => (.ok v, [req])
    | .error e =>
      if e.name = "TypeError" ∧ jsIncludes e.message "CORS" = true then
        let corsReq := openRouterCorsReq env.origin model messages apiKey
        match openRouterCorsAttempt (env.net corsReq) with
        | .ok v => (.ok v, [req, corsReq])
        | .error _ =>
          (.error (jsError "CORS error - try enabling browser CORS extension or use different provider"),
            [req, corsReq])
      else (.error e, [req])

def hfUrl (model : String) : String :=
  "https://api-inference.huggingface.co/models/" ++ model

def hfPrompt (messages : List ChatMessage) : String :=
  String.intercalate "\n" (messages.map fun msg =>
    if msg.role = "system" then "System: " ++ msg.content
    else if msg.role = "user" then "User: " ++ msg.content
    else if msg.role = "assistant" then "Assistant: " ++ msg.content
    else msg.content) ++ "\nAssistant:"

def hfPayload (messages : List ChatMessage) : Json :=
  Json.obj [("inputs", Json.str (hfPrompt messages)),
    ("parameters", Json.obj [("max_new_tokens", Json.num 500),
      ("temperature", Json.num ((7 : Rat)/10)), ("return_full_text", Json.bool false)])]

def hfHeaders (apiKey : String) : List (String × String) :=
  if apiKey = "" then [("Content-Type", "application/json")]
  else [("Content-Type", "application/json"), ("Authorization", "Bearer " ++ apiKey)]

def hfReq (model : String) (messages : List ChatMessage) (apiKey : String) : Request :=
  { url := hfUrl model, method := "POST", headers := hfHeaders apiKey,
    body := hfPayload messages }

def hfCorsReq (model : String) (messages : List ChatMessage) (apiKey : String) : Request :=
  { url := withCors (hfUrl model), method := "POST", headers := hfHeaders apiKey,
    body := hfPayload messages }

def hfAttempt (r : FetchResult) : Except JsError Json :=
  match r with
  | .reject e => .error e
  | .response status body =>
    if responseOk status then
      match body with
      | .error e => .error e
      | .ok data =>
        match data with
        | .arr elems =>
          let gt := (elems.headD Json.undef).optGet "generated_text"
          if gt.truthy then gt.callTrim
          else .error (jsError "Invalid response format from HuggingFace")
        | _ =>
          match data.get "generated_text" with
          | .error e => .error e
          | .ok gt =>
            if gt.truthy then gt.callTrim
            else .error (jsError "Invalid response format from HuggingFace")
    else
      match envelopeMessageVal body with
      | .error e => .error e
      | .ok mv =>
        .error (jsError (if mv.truthy then mv.jsToString
          else "HTTP " ++ toString status ++ " - Model may be loading, try again in a moment"))

def hfCorsAttempt (r : FetchResult) : Except JsError Json :=
  match r with
  | .reject e => .error e
  | .response status body =>
    if responseOk status then
      match body with
      | .error e => .error e
      | .ok corsData =>
        match corsData.idx 0 with
        | .error e => .error e
        | .ok e0 =>
          match (e0.optGet "generated_text").optCallTrim with
          | .error e => .error e
          | .ok t1 =>
            if t1.truthy then .ok t1
            else
              match corsData.get "generated_text" with
              | .error e => .error e
              | .ok gt =>
                match gt.optCallTrim with
                | .error e => .error e
                | .ok t2 =>
                  if t2.truthy then .ok t2
                  else .ok (Json.str "No response generated")
    else .error (jsError ("HTTP " ++ toString status))

def sendHuggingFaceChat (env : Env) (model : String) (messages : List ChatMessage)
    (apiKey : String) : Except JsError Json × List Request :=
  let req := hfReq model messages apiKey
  match hfAttempt (env.net req) with
  | .ok v => (.ok v, [req])
  | .error e =>
    if e.name = "TypeError" ∧ jsIncludes e.message "CORS" = true then
      let corsReq := hfCorsReq model messages apiKey
      match hfCorsAttempt (env.net corsReq) with
      | .ok v => (.ok v, [req, corsReq])
      | .error _ =>
        (.error (jsError "CORS error - HuggingFace may require API key or try different model"),
          [req, corsReq])
    else (.error e, [req])

def localDefaultEndpoint : String := "http://localhost:11434/api/chat"

def localPayload (model : String) (messages : List ChatMessage) : Json :=
  Json.obj [("model", Json.str model), ("messages", messagesJson messages),
    ("stream", Json.bool false),
    ("options", Json.obj [("temperature", Json.num ((7 : Rat)/10)), ("num_predict", Json.num 500)])]

def localReq (model : String) (messages : List ChatMessage) (endpoint : String) : Request :=
  { url := if endpoint = "" then localDefaultEndpoint else endpoint,
    method := "POST",
    headers := [("Content-Type", "application/json")],
    body := localPayload model messages }

def localAttempt (model : String) (r : FetchResult) : Except JsError Json :=
  match r with
  | .reject e => .error e
  | .response status body =>
    if responseOk status then
      match body with
      | .error e => .error e
      | .ok data =>
        match data.get "message" with
        | .error e => .error e
        | .ok msg =>
          if msg.truthy then
            match msg.get "content" with
            | .error e => .error e
            | .ok content =>
              if content.truthy then content.callTrim
              else .error (jsError "Invalid response format from Ollama")
          else .error (jsError "Invalid response format from Ollama")
    else
      .error (jsError ("Ollama server error: HTTP " ++ toString status ++
        ". Make sure Ollama is running and model \x27" ++ model ++ "\x27 is installed."))

def sendLocalChat (env : Env) (model : String) (messages : List ChatMessage)
    (endpoint : String) : Except JsError Json × List Request :=
  let req := localReq model messages endpoint
  match localAttempt model (env.net req) with
  | .ok v => (.ok v, [req])
  | .error e =>
    if e.name = "TypeError" ∧
        (jsIncludes e.message "Failed to fetch" = true ∨ jsIncludes e.message "CORS" = true) then
      (.error (jsError "Cannot connect to Ollama server. Make sure Ollama is running on the specified endpoint and CORS is enabled."),
        [req])
    else (.error e, [req])

def sendChat (env : Env) (provider model : String) (messages : List ChatMessage)
    (apiKey localEndpoint : String) : Except JsError Json × List Request :=
  let inner : Except JsError Json × List Request :=
    if provider = "openrouter" then sendOpenRouterChat env model messages apiKey
    else if provider = "huggingface" then sendHuggingFaceChat env model messages apiKey
    else if provider = "local" then sendLocalChat env model messages localEndpoint
    else (.error (jsError ("Unsupported provider: " ++ provider)), [])
  match inner with
  | (.ok v, tr) => (.ok v, tr)
  | (.error e, tr) => (.error (jsError ("AI request failed: " ++ e.message)), tr)

end AIProviders

def getDefaultModels : List (String × String) :=
  [("openrouter", "deepseek/deepseek-r1:free"),
   ("huggingface", "mistralai/Mixtral-8x7B-Instruct-v0.1"),
   ("local", "llama3")]

def getDefaultEndpoints : List (String × String) :=
  [("local", "http://localhost:11434/api/chat")]

/-! ## Substring lemmas for `jsIncludes` -/

lemma charsStartsWith_append (p t : List Char) : charsStartsWith p (p ++ t) = true := by
  induction p with
  | nil => rfl
  | cons c cs ih => simp [charsStartsWith, ih]

lemma charsContains_append (p x y : List Char) : charsContains p (x ++ (p ++ y)) = true := by
  induction x with
  | nil =>
    cases hp : p ++ y with
    | nil =>
      have hp0 : p = [] := by cases p <;> simp_all
      subst hp0
      rfl
    | cons c cs =>
      simp only [List.nil_append, hp, charsContains]
      rw [← hp, charsStartsWith_append]
      simp
  | cons c cs ih =>
    simp only [List.cons_append, charsContains, List.append_eq, ih, Bool.or_true]

lemma jsIncludes_of_data (s pat : String) (x y : List Char)
    (h : s.data = x ++ (pat.data ++ y)) : jsIncludes s pat = true := by
  simpa [jsIncludes, h] using charsContains_append pat.data x y

/-! ## Claim theorems -/

/-- C3: for every model, message list, apiKey and endpoint, `sendChat` with a
provider identifier outside the three known ones fails with an error whose
message identifies the unsupported provider, and issues no network request. -/
theorem c3_unsupported_provider (env : Env) (provider model : String)
    (messages : List ChatMessage) (apiKey localEndpoint : String)
    (h1 : provider ≠ "openrouter") (h2 : provider ≠ "huggingface") (h3 : provider ≠ "local") :
    sendChat env provider model messages apiKey localEndpoint =
      (.error (jsError ("AI request failed: Unsupported provider: " ++ provider)), []) := by
  simp only [sendChat]
  rw [if_neg h1, if_neg h2, if_neg h3]
  rfl

def envC3 : Env := { net := fun _ => .reject (jsError "network down"), origin := "o" }

/-- Witness for C3 at the concrete provider "unknown-provider". -/
theorem c3_unsupported_provider_wit :
    sendChat envC3 "unknown-provider" "m" [] "" "" =
      (.error (jsError "AI request failed: Unsupported provider: unknown-provider"), []) :=
  c3_unsupported_provider envC3 "unknown-provider" "m" [] "" ""
    (by decide) (by decide) (by decide)

/-- C4: for every model and message list, `sendChat` with provider
"openrouter" and an empty apiKey fails with a message stating the API key is
required, and issues no network request. -/
theorem c4_missing_api_key (env : Env) (model : String) (messages : List ChatMessage)
    (localEndpoint : String) :
    sendChat env "openrouter" model messages "" localEndpoint =
      (.error (jsError "AI request failed: OpenRouter API key is required"), []) :=
  rfl

/-- C9: the standalone module's `sendChat` and the inlined copy
`AIProviders.sendChat` are extensionally equal: for every environment and
every argument tuple they produce the same result and the same request
trace. -/
theorem c9_inlined_copy_equiv (env : Env) (provider model : String)
    (messages : List ChatMessage) (apiKey localEndpoint : String) :
    AIProviders.sendChat env provider model messages apiKey localEndpoint =
      sendChat env provider model messages apiKey localEndpoint :=
  rfl

/-- C5: whenever an adapter fails, `sendChat` fails with a single uniform
error (name "Error") whose message is the adapter's original message behind
the fixed prefix "AI request failed: ". -/
theorem c5_error_wrapping (env : Env) (model : String) (messages : List ChatMessage)
    (apiKey localEndpoint : String) (e : JsError) :
    ((sendOpenRouterChat env model messages apiKey).1 = .error e →
      (sendChat env "openrouter" model messages apiKey localEndpoint).1 =
        .error (jsError ("AI request failed: " ++ e.message))) ∧
    ((sendHuggingFaceChat env model messages apiKey).1 = .error e →
      (sendChat env "huggingface" model messages apiKey localEndpoint).1 =
        .error (jsError ("AI request failed: " ++ e.message))) ∧
    ((sendLocalChat env model messages localEndpoint).1 = .error e →
      (sendChat env "local" model messages apiKey localEndpoint).1 =
        .error (jsError ("AI request failed: " ++ e.message))) := by
  refine ⟨?_, ?_, ?_⟩ <;> intro h
  · rcases hp : sendOpenRouterChat env model messages apiKey with ⟨r, tr⟩
    rw [hp] at h
    replace h : r = .error e := h
    subst h
    simp [sendChat, hp]
  · rcases hp : sendHuggingFaceChat env model messages apiKey with ⟨r, tr⟩
    rw [hp] at h
    replace h : r = .error e := h
    subst h
    simp [sendChat, hp]
  · rcases hp : sendLocalChat env model messages localEndpoint with ⟨r, tr⟩
    rw [hp] at h
    replace h : r = .error e := h
    subst h
    simp [sendChat, hp]

def envC5 : Env := { net := fun _ => .reject (jsError "boom"), origin := "o" }

/-- Witness for C5: the missing-key adapter error surfaces through
`sendChat` with the fixed prefix. -/
theorem c5_error_wrapping_wit :
    (sendChat envC5 "openrouter" "m" [] "" "").1 =
      .error (jsError ("AI request failed: " ++
        (jsError "OpenRouter API key is required").message)) :=
  (c5_error_wrapping envC5 "m" [] "" "" (jsError "OpenRouter API key is required")).1 rfl

def envC1cex : Env :=
  { net := fun _ => .response 200
      (.ok (Json.obj [("choices", Json.arr [Json.obj [("message",
        Json.obj [("content", Json.str " hi ")])]])])),
    origin := "o" }

/-- C1 counterexample: on a well-formed openrouter success whose content is
" hi ", `sendChat` returns " hi " verbatim, which differs from the trimmed
text "hi" the claim asserts for every provider. -/
theorem c1_openrouter_untrimmed_cex :
    (sendChat envC1cex "openrouter" "m" [] "k" "").1 = .ok (Json.str " hi ") ∧
      jsTrim " hi " = "hi" ∧ " hi " ≠ "hi" :=
  ⟨rfl, rfl, by decide⟩

def envC6cex : Env := { net := fun _ => .response 500 (.ok Json.null), origin := "o" }

/-- C6 counterexample: a 500 response whose body parses to the JSON value
`null` makes the openrouter adapter throw a property-access TypeError, so the
surfaced message contains neither a remote-supplied message (the body is not
an error envelope) nor the status code 500. -/
theorem c6_null_body_cex :
    (sendChat envC6cex "openrouter" "m" [] "k" "").1 =
      .error (jsError "AI request failed: Cannot read properties of null (reading \x27error\x27)") ∧
    jsIncludes "AI request failed: Cannot read properties of null (reading \x27error\x27)" "500" = false :=
  ⟨rfl, by decide⟩

def envC10cex : Env :=
  { net := fun _ => .response 200 (.ok (Json.obj [("generated_text", Json.str " ")])),
    origin := "o" }

/-- C10 counterexample: a 2xx huggingface response whose generated-text is a
single space passes the truthiness check and is trimmed to the empty string,
so `sendChat` does return the empty string for this provider. -/
theorem c10_whitespace_cex :
    (sendChat envC10cex "huggingface" "m" [] "" "").1 = .ok (Json.str "") ∧
      (" " : String) ≠ "" :=
  ⟨rfl, by decide⟩

/-- C1 (amended): on a well-formed 2xx success response, the huggingface and
local adapters return the extracted text trimmed of surrounding whitespace,
while the openrouter adapter returns the first choice's message content
verbatim, without trimming. -/
theorem c1_success_extraction :
    (∀ (env : Env) (model : String) (messages : List ChatMessage)
        (apiKey localEndpoint content : String) (rest : List Json)
        (extra : List (String × Json)) (status : Nat),
      apiKey ≠ "" →
      env.net (openRouterReq env.origin model messages apiKey) =
        .response status (.ok (Json.obj (("choices",
          Json.arr (Json.obj [("message", Json.obj [("content", Json.str content)])] :: rest)) :: extra))) →
      responseOk status = true →
      sendChat env "openrouter" model messages apiKey localEndpoint =
        (.ok (Json.str content), [openRouterReq env.origin model messages apiKey])) ∧
    (∀ (env : Env) (model : String) (messages : List ChatMessage)
        (apiKey localEndpoint t : String) (more : List (String × Json))
        (rest : List Json) (status : Nat),
      t ≠ "" →
      env.net (hfReq model messages apiKey) =
        .response status (.ok (Json.arr (Json.obj (("generated_text", Json.str t) :: more) :: rest))) →
      responseOk status = true →
      sendChat env "huggingface" model messages apiKey localEndpoint =
        (.ok (Json.str (jsTrim t)), [hfReq model messages apiKey])) ∧
    (∀ (env : Env) (model : String) (messages : List ChatMessage)
        (apiKey localEndpoint t : String) (more : List (String × Json)) (status : Nat),
      t ≠ "" →
      env.net (hfReq model messages apiKey) =
        .response status (.ok (Json.obj (("generated_text", Json.str t) :: more))) →
      responseOk status = true →
      sendChat env "huggingface" model messages apiKey localEndpoint =
        (.ok (Json.str (jsTrim t)), [hfReq model messages apiKey])) ∧
    (∀ (env : Env) (model : String) (messages : List ChatMessage)
        (apiKey localEndpoint t : String) (mf more : List (String × Json)) (status : Nat),
      t ≠ "" →
      env.net (localReq model messages localEndpoint) =
        .response status (.ok (Json.obj (("message", Json.obj (("content", Json.str t) :: mf)) :: more))) →
      responseOk status = true →
      sendChat env "local" model messages apiKey localEndpoint =
        (.ok (Json.str (jsTrim t)), [localReq model messages localEndpoint])) := by
  refine ⟨?_, ?_, ?_, ?_⟩
  · intro env model messages apiKey localEndpoint content rest extra status hk hnet hok
    simp [sendChat, sendOpenRouterChat, hk, hnet, openRouterAttempt, hok,
      Json.get, Json.getD, lookupField, Json.truthy, Json.idx, List.getD, jsError]
  · intro env model messages apiKey localEndpoint t more rest status ht hnet hok
    simp [sendChat, sendHuggingFaceChat, hnet, hfAttempt, hok,
      Json.get, Json.getD, Json.optGet, lookupField, Json.truthy, Json.callTrim, ht]
  · intro env model messages apiKey localEndpoint t more status ht hnet hok
    simp [sendChat, sendHuggingFaceChat, hnet, hfAttempt, hok,
      Json.get, Json.getD, Json.optGet, lookupField, Json.truthy, Json.callTrim, ht]
  · intro env model messages apiKey localEndpoint t mf more status ht hnet hok
    simp [sendChat, sendLocalChat, hnet, localAttempt, hok,
      Json.get, Json.getD, lookupField, Json.truthy, Json.callTrim, ht]

def envC1or : Env :=
  { net := fun _ => .response 200
      (.ok (Json.obj [("choices", Json.arr [Json.obj [("message",
        Json.obj [("content", Json.str " x ")])]])])),
    origin := "o" }

def envC1hfArr : Env :=
  { net := fun _ => .response 200
      (.ok (Json.arr [Json.obj [("generated_text", Json.str " y ")]])),
    origin := "o" }

def envC1hfObj : Env :=
  { net := fun _ => .response 200 (.ok (Json.obj [("generated_text", Json.str " y ")])),
    origin := "o" }

def envC1loc : Env :=
  { net := fun _ => .response 200
      (.ok (Json.obj [("message", Json.obj [("content", Json.str " z ")])])),
    origin := "o" }

/-- Witness for C1 (amended) at concrete responses for all four shapes. -/
theorem c1_success_extraction_wit :
    sendChat envC1or "openrouter" "m" [] "k" "" =
      (.ok (Json.str " x "), [openRouterReq "o" "m" [] "k"]) ∧
    sendChat envC1hfArr "huggingface" "m" [] "" "" =
      (.ok (Json.str "y"), [hfReq "m" [] ""]) ∧
    sendChat envC1hfObj "huggingface" "m" [] "" "" =
      (.ok (Json.str "y"), [hfReq "m" [] ""]) ∧
    sendChat envC1loc "local" "m" [] "" "" =
      (.ok (Json.str "z"), [localReq "m" [] ""]) :=
  ⟨c1_success_extraction.1 envC1or "m" [] "k" "" " x " [] [] 200 (by decide) rfl rfl,
   c1_success_extraction.2.1 envC1hfArr "m" [] "" "" " y " [] [] 200 (by decide) rfl rfl,
   c1_success_extraction.2.2.1 envC1hfObj "m" [] "" "" " y " [] 200 (by decide) rfl rfl,
   c1_success_extraction.2.2.2 envC1loc "m" [] "" "" " z " [] [] 200 (by decide) rfl rfl⟩

/-- C2: the huggingface adapter's first issued request carries as its
"inputs" field the message list flattened line by line (System/User/
Assistant labels, raw content for other roles), joined by newlines and
suffixed with a trailing Assistant cue; in particular a system message "A"
followed by a user message "B" yields exactly "System: A\nUser: B\nAssistant:". -/
theorem c2_prompt_flattening (env : Env) (model : String) (messages : List ChatMessage)
    (apiKey : String) :
    (sendHuggingFaceChat env model messages apiKey).2.head? =
      some (hfReq model messages apiKey) ∧
    (hfReq model messages apiKey).body.getD "inputs" =
      Json.str (String.intercalate "\n" (messages.map fun msg =>
        if msg.role = "system" then "System: " ++ msg.content
        else if msg.role = "user" then "User: " ++ msg.content
        else if msg.role = "assistant" then "Assistant: " ++ msg.content
        else msg.content) ++ "\nAssistant:") ∧
    hfPrompt [⟨"system", "A"⟩, ⟨"user", "B"⟩] = "System: A\nUser: B\nAssistant:" := by
  refine ⟨?_, rfl, rfl⟩
  simp only [sendHuggingFaceChat]
  cases hfAttempt (env.net (hfReq model messages apiKey)) with
  | ok v => rfl
  | error e =>
    by_cases hc : e.name = "TypeError" ∧ jsIncludes e.message "CORS" = true
    · simp only [if_pos hc]
      cases hfCorsAttempt (env.net (hfCorsReq model messages apiKey)) <;> rfl
    · simp only [if_neg hc]
      rfl

/-- C7: an HTTP 2xx openrouter response whose body is an object with an
empty choice list, or with no choices field at all, makes `sendChat` fail
with the invalid-response-format error rather than crashing on index
access. -/
theorem c7_empty_choices (env : Env) (model : String) (messages : List ChatMessage)
    (apiKey localEndpoint : String) (status : Nat) (fields : List (String × Json))
    (hk : apiKey ≠ "")
    (hnet : env.net (openRouterReq env.origin model messages apiKey) =
      .response status (.ok (Json.obj fields)))
    (hok : responseOk status = true)
    (hch : lookupField fields "choices" = Json.undef ∨
      lookupField fields "choices" = Json.arr []) :
    sendChat env "openrouter" model messages apiKey localEndpoint =
      (.error (jsError "AI request failed: Invalid response format from OpenRouter"),
        [openRouterReq env.origin model messages apiKey]) := by
  rcases hch with hch | hch <;>
    simp [sendChat, sendOpenRouterChat, hk, hnet, openRouterAttempt, hok,
      Json.get, Json.getD, hch, Json.truthy, Json.idx, List.getD, jsError]

def envC7 : Env :=
  { net := fun _ => .response 200 (.ok (Json.obj [("choices", Json.arr [])])),
    origin := "o" }

/-- Witness for C7 at a concrete `(choices: empty)` 200 response. -/
theorem c7_empty_choices_wit :
    sendChat envC7 "openrouter" "m" [] "k" "" =
      (.error (jsError "AI request failed: Invalid response format from OpenRouter"),
        [openRouterReq "o" "m" [] "k"]) :=
  c7_empty_choices envC7 "m" [] "k" "" 200 [("choices", Json.arr [])]
    (by decide) rfl rfl (Or.inr rfl)

/-- C10 (amended): for huggingface and local, a 2xx response whose extracted
text field exists but is the empty string fails with the invalid-format
error (the success check tests truthiness), so an empty field never becomes
an empty reply; however `sendChat` can still return the empty string when
the field holds only whitespace, since trimming happens after the check. -/
theorem c10_empty_field_rejected :
    (∀ (env : Env) (model : String) (messages : List ChatMessage)
        (apiKey localEndpoint : String) (more : List (String × Json))
        (rest : List Json) (status : Nat),
      env.net (hfReq model messages apiKey) =
        .response status (.ok (Json.arr (Json.obj (("generated_text", Json.str "") :: more) :: rest))) →
      responseOk status = true →
      sendChat env "huggingface" model messages apiKey localEndpoint =
        (.error (jsError "AI request failed: Invalid response format from HuggingFace"),
          [hfReq model messages apiKey])) ∧
    (∀ (env : Env) (model : String) (messages : List ChatMessage)
        (apiKey localEndpoint : String) (more : List (String × Json)) (status : Nat),
      env.net (hfReq model messages apiKey) =
        .response status (.ok (Json.obj (("generated_text", Json.str "") :: more))) →
      responseOk status = true →
      sendChat env "huggingface" model messages apiKey localEndpoint =
        (.error (jsError "AI request failed: Invalid response format from HuggingFace"),
          [hfReq model messages apiKey])) ∧
    (∀ (env : Env) (model : String) (messages : List ChatMessage)
        (apiKey localEndpoint : String) (mf more : List (String × Json)) (status : Nat),
      env.net (localReq model messages localEndpoint) =
        .response status (.ok (Json.obj (("message", Json.obj (("content", Json.str "") :: mf)) :: more))) →
      responseOk status = true →
      sendChat env "local" model messages apiKey localEndpoint =
        (.error (jsError "AI request failed: Invalid response format from Ollama"),
          [localReq model messages localEndpoint])) := by
  refine ⟨?_, ?_, ?_⟩
  · intro env model messages apiKey localEndpoint more rest status hnet hok
    simp [sendChat, sendHuggingFaceChat, hnet, hfAttempt, hok,
      Json.get, Json.getD, Json.optGet, lookupField, Json.truthy, jsError]
  · intro env model messages apiKey localEndpoint more status hnet hok
    simp [sendChat, sendHuggingFaceChat, hnet, hfAttempt, hok,
      Json.get, Json.getD, Json.optGet, lookupField, Json.truthy, jsError]
  · intro env model messages apiKey localEndpoint mf more status hnet hok
    simp [sendChat, sendLocalChat, hnet, localAttempt, hok,
      Json.get, Json.getD, lookupField, Json.truthy, jsError]

def envC10wArr : Env :=
  { net := fun _ => .response 200 (.ok (Json.arr [Json.obj [("generated_text", Json.str "")]])),
    origin := "o" }

def envC10wObj : Env :=
  { net := fun _ => .response 200 (.ok (Json.obj [("generated_text", Json.str "")])),
    origin := "o" }

def envC10wLoc : Env :=
  { net := fun _ => .response 200
      (.ok (Json.obj [("message", Json.obj [("content", Json.str "")])])),
    origin := "o" }

/-- Witness for C10 (amended) at concrete empty-field 200 responses. -/
theorem c10_empty_field_rejected_wit :
    sendChat envC10wArr "huggingface" "m" [] "" "" =
      (.error (jsError "AI request failed: Invalid response format from HuggingFace"),
        [hfReq "m" [] ""]) ∧
    sendChat envC10wObj "huggingface" "m" [] "" "" =
      (.error (jsError "AI request failed: Invalid response format from HuggingFace"),
        [hfReq "m" [] ""]) ∧
    sendChat envC10wLoc "local" "m" [] "" "" =
      (.error (jsError "AI request failed: Invalid response format from Ollama"),
        [localReq "m" [] ""]) :=
  ⟨c10_empty_field_rejected.1 envC10wArr "m" [] "" "" [] [] 200 rfl rfl,
   c10_empty_field_rejected.2.1 envC10wObj "m" [] "" "" [] 200 rfl rfl,
   c10_empty_field_rejected.2.2 envC10wLoc "m" [] "" "" [] [] 200 rfl rfl⟩

/-- C8: in the huggingface CORS-retry path, when the proxy response salvage
finds no usable generated-text, `sendChat` returns the literal placeholder
"No response generated" instead of raising; by contrast the openrouter and
local adapters always raise on the corresponding failures. -/
theorem c8_hf_salvage_default :
    (∀ (env : Env) (model : String) (messages : List ChatMessage)
        (apiKey localEndpoint tmsg : String) (fields : List (String × Json)) (status : Nat),
      jsIncludes tmsg "CORS" = true →
      env.net (hfReq model messages apiKey) = .reject (typeError tmsg) →
      env.net (hfCorsReq model messages apiKey) = .response status (.ok (Json.obj fields)) →
      responseOk status = true →
      lookupField fields "0" = Json.undef →
      lookupField fields "generated_text" = Json.undef →
      sendChat env "huggingface" model messages apiKey localEndpoint =
        (.ok (Json.str "No response generated"),
          [hfReq model messages apiKey, hfCorsReq model messages apiKey])) ∧
    (∀ (env : Env) (model : String) (messages : List ChatMessage)
        (apiKey localEndpoint tmsg : String),
      apiKey ≠ "" →
      jsIncludes tmsg "CORS" = true →
      env.net (openRouterReq env.origin model messages apiKey) = .reject (typeError tmsg) →
      env.net (openRouterCorsReq env.origin model messages apiKey) = .reject (typeError tmsg) →
      sendChat env "openrouter" model messages apiKey localEndpoint =
        (.error (jsError "AI request failed: CORS error - try enabling browser CORS extension or use different provider"),
          [openRouterReq env.origin model messages apiKey,
            openRouterCorsReq env.origin model messages apiKey])) ∧
    (∀ (env : Env) (model : String) (messages : List ChatMessage)
        (apiKey localEndpoint : String),
      env.net (localReq model messages localEndpoint) = .reject (typeError "Failed to fetch") →
      sendChat env "local" model messages apiKey localEndpoint =
        (.error (jsError "AI request failed: Cannot connect to Ollama server. Make sure Ollama is running on the specified endpoint and CORS is enabled."),
          [localReq model messages localEndpoint])) := by
  refine ⟨?_, ?_, ?_⟩
  · intro env model messages apiKey localEndpoint tmsg fields status hC h1 h2 hok h0 hgt
    have h0n : lookupField fields (toString (0 : Nat)) = Json.undef := h0
    simp [sendChat, sendHuggingFaceChat, h1, hfAttempt, typeError, hC,
      hfCorsAttempt, h2, hok, Json.idx, h0, h0n, Json.optGet, Json.optCallTrim,
      Json.get, Json.getD, hgt, Json.truthy]
  · intro env model messages apiKey localEndpoint tmsg hk hC h1 h2
    simp [sendChat, sendOpenRouterChat, hk, h1, openRouterAttempt, typeError, hC,
      openRouterCorsAttempt, h2, jsError]
  · intro env model messages apiKey localEndpoint h1
    have hff : jsIncludes "Failed to fetch" "Failed to fetch" = true := by decide
    simp [sendChat, sendLocalChat, h1, localAttempt, typeError, hff, jsError]

def envC8hf : Env :=
  { net := fun r => if r.url = hfUrl "m" then .reject (typeError "CORS blocked")
      else .response 200 (.ok (Json.obj [])),
    origin := "o" }

def envC8or : Env := { net := fun _ => .reject (typeError "CORS blocked"), origin := "o" }

def envC8loc : Env := { net := fun _ => .reject (typeError "Failed to fetch"), origin := "o" }

/-- Witness for C8 at concrete transport failures. -/
theorem c8_hf_salvage_default_wit :
    sendChat envC8hf "huggingface" "m" [] "" "" =
      (.ok (Json.str "No response generated"), [hfReq "m" [] "", hfCorsReq "m" [] ""]) ∧
    sendChat envC8or "openrouter" "m" [] "k" "" =
      (.error (jsError "AI request failed: CORS error - try enabling browser CORS extension or use different provider"),
        [openRouterReq "o" "m" [] "k", openRouterCorsReq "o" "m" [] "k"]) ∧
    sendChat envC8loc "local" "m" [] "" "" =
      (.error (jsError "AI request failed: Cannot connect to Ollama server. Make sure Ollama is running on the specified endpoint and CORS is enabled."),
        [localReq "m" [] ""]) :=
  ⟨c8_hf_salvage_default.1 envC8hf "m" [] "" "" "CORS blocked" [] 200
      (by decide) rfl rfl rfl rfl rfl,
   c8_hf_salvage_default.2.1 envC8or "m" [] "k" "" "CORS blocked"
      (by decide) (by decide) rfl rfl,
   c8_hf_salvage_default.2.2 envC8loc "m" [] "" "" rfl⟩

/-- C6 (amended): for a primary response with status outside [200,300), the
failure message contains the remote-supplied error message (when the
envelope chain yields a string) or the numeric status code, provided the
body's error-message chain evaluates without throwing to a non-truthy value
or a string (for a body parsing to JSON `null` the chain itself throws, see
the counterexample); the local adapter always surfaces the status code. -/
theorem c6_http_error_message :
    (∀ (env : Env) (model : String) (messages : List ChatMessage)
        (apiKey localEndpoint : String) (status : Nat)
        (body : Except JsError Json) (mv : Json),
      apiKey ≠ "" →
      env.net (openRouterReq env.origin model messages apiKey) = .response status body →
      responseOk status = false →
      envelopeMessageVal body = .ok mv →
      (mv.truthy = false ∨ ∃ m, mv = Json.str m) →
      ∃ e, (sendChat env "openrouter" model messages apiKey localEndpoint).1 = .error e ∧
        (jsIncludes e.message (toString status) = true ∨
          ∃ m, mv = Json.str m ∧ jsIncludes e.message m = true)) ∧
    (∀ (env : Env) (model : String) (messages : List ChatMessage)
        (apiKey localEndpoint : String) (status : Nat)
        (body : Except JsError Json) (mv : Json),
      env.net (hfReq model messages apiKey) = .response status body →
      responseOk status = false →
      envelopeMessageVal body = .ok mv →
      (mv.truthy = false ∨ ∃ m, mv = Json.str m) →
      ∃ e, (sendChat env "huggingface" model messages apiKey localEndpoint).1 = .error e ∧
        (jsIncludes e.message (toString status) = true ∨
          ∃ m, mv = Json.str m ∧ jsIncludes e.message m = true)) ∧
    (∀ (env : Env) (model : String) (messages : List ChatMessage)
        (apiKey localEndpoint : String) (status : Nat) (body : Except JsError Json),
      env.net (localReq model messages localEndpoint) = .response status body →
      responseOk status = false →
      ∃ e, (sendChat env "local" model messages apiKey localEndpoint).1 = .error e ∧
        jsIncludes e.message (toString status) = true) := by
  refine ⟨?_, ?_, ?_⟩
  · intro env model messages apiKey localEndpoint status body mv hk hnet hbad hmv hcase
    rcases hcase with hfalse | ⟨m, rfl⟩
    · have hsc : (sendChat env "openrouter" model messages apiKey localEndpoint).1 =
          .error (jsError ("AI request failed: " ++ ("HTTP " ++ toString status))) := by
        simp [sendChat, sendOpenRouterChat, hk, hnet, openRouterAttempt, hbad, hmv,
          hfalse, jsError]
      exact ⟨_, hsc, Or.inl (jsIncludes_of_data _ _
        ("AI request failed: ".data ++ "HTTP ".data) []
        (by simp [jsError, String.data_append]))⟩
    · by_cases hm : (Json.str m).truthy = true
      · have hsc : (sendChat env "openrouter" model messages apiKey localEndpoint).1 =
            .error (jsError ("AI request failed: " ++ m)) := by
          simp [sendChat, sendOpenRouterChat, hk, hnet, openRouterAttempt, hbad, hmv,
            hm, Json.jsToString, jsError]
        exact ⟨_, hsc, Or.inr ⟨m, rfl,
          jsIncludes_of_data _ _ "AI request failed: ".data []
            (by simp [jsError, String.data_append])⟩⟩
      · have hfalse : (Json.str m).truthy = false := by
          cases h : (Json.str m).truthy
          · rfl
          · exact absurd h hm
        have hsc : (sendChat env "openrouter" model messages apiKey localEndpoint).1 =
            .error (jsError ("AI request failed: " ++ ("HTTP " ++ toString status))) := by
          simp [sendChat, sendOpenRouterChat, hk, hnet, openRouterAttempt, hbad, hmv,
            hfalse, jsError]
        exact ⟨_, hsc, Or.inl (jsIncludes_of_data _ _
          ("AI request failed: ".data ++ "HTTP ".data) []
          (by simp [jsError, String.data_append]))⟩
  · intro env model messages apiKey localEndpoint status body mv hnet hbad hmv hcase
    rcases hcase with hfalse | ⟨m, rfl⟩
    · have hsc : (sendChat env "huggingface" model messages apiKey localEndpoint).1 =
          .error (jsError ("AI request failed: " ++ ("HTTP " ++ toString status ++
            " - Model may be loading, try again in a moment"))) := by
        simp [sendChat, sendHuggingFaceChat, hnet, hfAttempt, hbad, hmv, hfalse, jsError]
      exact ⟨_, hsc, Or.inl (jsIncludes_of_data _ _
        ("AI request failed: ".data ++ "HTTP ".data)
        " - Model may be loading, try again in a moment".data
        (by simp [jsError, String.data_append]))⟩
    · by_cases hm : (Json.str m).truthy = true
      · have hsc : (sendChat env "huggingface" model messages apiKey localEndpoint).1 =
            .error (jsError ("AI request failed: " ++ m)) := by
          simp [sendChat, sendHuggingFaceChat, hnet, hfAttempt, hbad, hmv,
            hm, Json.jsToString, jsError]
        exact ⟨_, hsc, Or.inr ⟨m, rfl,
          jsIncludes_of_data _ _ "AI request failed: ".data []
            (by simp [jsError, String.data_append])⟩⟩
      · have hfalse : (Json.str m).truthy = false := by
          cases h : (Json.str m).truthy
          · rfl
          · exact absurd h hm
        have hsc : (sendChat env "huggingface" model messages apiKey localEndpoint).1 =
            .error (jsError ("AI request failed: " ++ ("HTTP " ++ toString status ++
              " - Model may be loading, try again in a moment"))) := by
          simp [sendChat, sendHuggingFaceChat, hnet, hfAttempt, hbad, hmv, hfalse, jsError]
        exact ⟨_, hsc, Or.inl (jsIncludes_of_data _ _
          ("AI request failed: ".data ++ "HTTP ".data)
          " - Model may be loading, try again in a moment".data
          (by simp [jsError, String.data_append]))⟩
  · intro env model messages apiKey localEndpoint status body hnet hbad
    have hsc : (sendChat env "local" model messages apiKey localEndpoint).1 =
        .error (jsError ("AI request failed: " ++ ("Ollama server error: HTTP " ++
          toString status ++ ". Make sure Ollama is running and model \x27" ++ model ++
          "\x27 is installed."))) := by
      simp [sendChat, sendLocalChat, hnet, localAttempt, hbad, jsError]
    exact ⟨_, hsc, jsIncludes_of_data _ _
      ("AI request failed: ".data ++ "Ollama server error: HTTP ".data)
      (". Make sure Ollama is running and model \x27".data ++ (model.data ++
        "\x27 is installed.".data))
      (by simp [jsError, String.data_append])⟩

def envC6a : Env :=
  { net := fun _ => .response 404
      (.ok (Json.obj [("error", Json.obj [("message", Json.str "Not Found")])])),
    origin := "o" }

def envC6b : Env :=
  { net := fun _ => .response 503 (.error (jsError "invalid json")), origin := "o" }

def envC6c : Env :=
  { net := fun _ => .response 500 (.ok (Json.str "oops")), origin := "o" }

/-- Witness for C6 (amended): a 404 with an error envelope, a 503 with an
unparseable body, and a local 500. -/
theorem c6_http_error_message_wit :
    (∃ e, (sendChat envC6a "openrouter" "m" [] "k" "").1 = .error e ∧
      (jsIncludes e.message (toString 404) = true ∨
        ∃ m, (Json.str "Not Found") = Json.str m ∧ jsIncludes e.message m = true)) ∧
    (∃ e, (sendChat envC6b "huggingface" "m" [] "" "").1 = .error e ∧
      (jsIncludes e.message (toString 503) = true ∨
        ∃ m, (Json.undef : Json) = Json.str m ∧ jsIncludes e.message m = true)) ∧
    (∃ e, (sendChat envC6c "local" "m" [] "" "").1 = .error e ∧
      jsIncludes e.message (toString 500) = true) :=
  ⟨c6_http_error_message.1 envC6a "m" [] "k" "" 404
      (.ok (Json.obj [("error", Json.obj [("message", Json.str "Not Found")])]))
      (Json.str "Not Found") (by decide) rfl rfl rfl (Or.inr ⟨"Not Found", rfl⟩),
   c6_http_error_message.2.1 envC6b "m" [] "" "" 503
      (.error (jsError "invalid json")) Json.undef rfl rfl rfl (Or.inl rfl),
   c6_http_error_message.2.2 envC6c "m" [] "" "" 500 (.ok (Json.str "oops")) rfl rfl⟩
